import Mathlib

/-!
Shallow embedding of the StudySphere collaborative-study-hub client
(src/frontend/src/App.js) for verification of its real-time room
synchronization behaviour: the StudyRoom socket event handlers, the
emitting callbacks (sendMessage, handleNotesChange, draw), the Dashboard
join-room flow, the SocketProvider / PrivateRoute authentication gating,
and the AuthProvider token-restore effect.

Numbers that are JS numbers are embedded as Nat or Int (the claims under
study do not depend on floating-point rounding); JS string methods are
embedded as explicit functions on the character list of a Lean String.
-/

namespace StudySphere

/-- JS String.prototype.trim, embedded on the character list: drop
whitespace from both ends (agrees with JS on the ASCII inputs at stake). -/
def jsTrim (s : String) : String :=
  String.mk (((s.data.dropWhile Char.isWhitespace).reverse.dropWhile
    Char.isWhitespace).reverse)

/-- JS String.prototype.toUpperCase, embedded character-wise (agrees with
JS on the ASCII join codes the backend issues). -/
def jsToUpperCase (s : String) : String :=
  String.mk (s.data.map Char.toUpper)

/-- JS String.prototype.toLowerCase, embedded character-wise. -/
def jsToLowerCase (s : String) : String :=
  String.mk (s.data.map Char.toLower)

/-- A user identity (id plus display name) as held by the AuthProvider
after authentication. -/
structure User where
  id : String
  username : String
deriving DecidableEq

/-- A chat message as delivered by the server in a chat_message event:
username, message, timestamp, sequence (App.js event surface). The
timestamp is opaque to the client and kept as a string. -/
structure ChatMessage where
  username : String
  message : String
  timestamp : String
  sequence : Nat
deriving DecidableEq

/-- One entry of the connected-users list delivered in room_state,
user_joined and user_left events (rendered via user.socket_id and
user.username, App.js 589-596). -/
structure PresenceUser where
  socket_id : String
  username : String
deriving DecidableEq

/-- Stroke data carried in drawing_data / drawing_update events:
x, y, color, width. -/
structure DrawData where
  x : Int
  y : Int
  color : String
  width : Nat
deriving DecidableEq

/-- The events the client emits on its socket connection
(socket.emit calls in App.js). -/
inductive EmittedEvent where
  | join_room (room_id : String) (user : User)
  | update_notes (room_id : String) (content : String)
  | send_chat_message (room_id : String) (message : String)
  | drawing_data (room_id : String) (data : DrawData)
deriving DecidableEq

/-- The React state of the StudyRoom component (App.js 443-453):
notes, chatMessages, newMessage, connectedUsers, plus the socket from
context (modelled by whether it is non-null) and the roomId prop. -/
structure RoomClientState where
  notes : String
  chatMessages : List ChatMessage
  newMessage : String
  connectedUsers : List PresenceUser
  socketPresent : Bool
  roomId : String
deriving DecidableEq

/-- Handler for a received room_state event (App.js 464-468): sets notes,
chat list and connected users wholesale from the snapshot. -/
def roomStateHandler (notes_content : String) (chat_messages : List ChatMessage)
    (users : List PresenceUser) (st : RoomClientState) : RoomClientState :=
  { st with notes := notes_content, chatMessages := chat_messages,
            connectedUsers := users }

/-- Handler for a received chat_message event (App.js 471-473):
setChatMessages over the previous list, appending the received message. -/
def chatMessageHandler (message : ChatMessage) (st : RoomClientState) :
    RoomClientState :=
  { st with chatMessages := st.chatMessages ++ [message] }

/-- Handler for a received notes_updated event (App.js 476-478):
setNotes to the received content. -/
def notesUpdatedHandler (content : String) (st : RoomClientState) :
    RoomClientState :=
  { st with notes := content }

/-- Handler for a received user_joined event (App.js 481-483):
setConnectedUsers to the received users list. -/
def userJoinedHandler (users : List PresenceUser) (st : RoomClientState) :
    RoomClientState :=
  { st with connectedUsers := users }

/-- Handler for a received user_left event (App.js 485-487):
setConnectedUsers to the received users list. -/
def userLeftHandler (users : List PresenceUser) (st : RoomClientState) :
    RoomClientState :=
  { st with connectedUsers := users }

/-- Processing a sequence of received chat_message events in order of
receipt. -/
def processChatEvents (st : RoomClientState) (ms : List ChatMessage) :
    RoomClientState :=
  ms.foldl (fun s m => chatMessageHandler m s) st

/-- Processing a sequence of received notes_updated contents in order of
receipt. -/
def processNotesEvents (st : RoomClientState) (cs : List String) :
    RoomClientState :=
  cs.foldl (fun s c => notesUpdatedHandler c s) st

/-- The sendMessage submit callback (App.js 524-533): if the trimmed input
is non-empty and the socket is non-null, emit send_chat_message with the
trimmed text and clear the input; otherwise do nothing. Returns the new
component state and the list of emitted events. -/
def sendMessage (st : RoomClientState) : RoomClientState × List EmittedEvent :=
  if jsTrim st.newMessage != "" && st.socketPresent then
    ({ st with newMessage := "" },
     [EmittedEvent.send_chat_message st.roomId (jsTrim st.newMessage)])
  else
    (st, [])

/-- The handleNotesChange callback (App.js 514-522): setNotes to the new
content unconditionally, then emit update_notes if the socket is
non-null. -/
def handleNotesChange (content : String) (st : RoomClientState) :
    RoomClientState × List EmittedEvent :=
  ({ st with notes := content },
   if st.socketPresent then
     [EmittedEvent.update_notes st.roomId content]
   else [])

/-- A mouse event as used by the whiteboard callbacks: clientX and
clientY. -/
structure MouseEvent where
  clientX : Int
  clientY : Int
deriving DecidableEq

/-- The 2d canvas context state touched by the drawing code: current
strokeStyle, lineWidth, and the path of points drawn so far. -/
structure CanvasCtx where
  strokeStyle : String
  lineWidth : Nat
  path : List (Int × Int)
deriving DecidableEq

/-- The draw mouse-move callback (App.js 548-569): when isDrawing, compute
canvas-relative x and y, stroke locally with width 2 and color "#000",
and, if the socket is non-null, emit drawing_data with payload
room_id and data x, y, color, width. -/
def draw (isDrawing : Bool) (rectLeft rectTop : Int) (e : MouseEvent)
    (st : RoomClientState) (ctx : CanvasCtx) :
    CanvasCtx × List EmittedEvent :=
  if isDrawing then
    let x := e.clientX - rectLeft
    let y := e.clientY - rectTop
    ({ strokeStyle := "#000", lineWidth := 2, path := ctx.path ++ [(x, y)] },
     if st.socketPresent then
       [EmittedEvent.drawing_data st.roomId
         { x := x, y := y, color := "#000", width := 2 }]
     else [])
  else
    (ctx, [])

/-- Handler for a received drawing_update event (App.js 490-501): if the
canvas ref is non-null, set strokeStyle to the received color, lineWidth
to the received width, and lineTo the received x and y. -/
def drawingUpdateHandler (d : DrawData) (canvas : Option CanvasCtx) :
    Option CanvasCtx :=
  match canvas with
  | none => none
  | some ctx =>
      some { strokeStyle := d.color, lineWidth := d.width,
             path := ctx.path ++ [(d.x, d.y)] }

/-- The part of the Dashboard component state relevant to joining a room
by code (App.js 264): the roomCode field. -/
structure DashboardState where
  roomCode : String
deriving DecidableEq

/-- The onChange handler of the join-room input (App.js 389):
setRoomCode of the typed value uppercased. -/
def roomCodeOnChange (typed : String) (st : DashboardState) : DashboardState :=
  { st with roomCode := jsToUpperCase typed }

/-- The body of the POST rooms/join request (App.js 307-310): the stored
roomCode, sent as room_code. -/
structure JoinRequest where
  room_code : String
deriving DecidableEq

/-- The payload joinRoom submits to the join endpoint (App.js 303-320). -/
def joinRoomRequest (st : DashboardState) : JoinRequest :=
  { room_code := st.roomCode }

/-- A room as far as the join lookup is concerned: id, name, join code. -/
structure Room where
  id : String
  name : String
  room_code : String
deriving DecidableEq

/-- Modelled from the spec: the backend lookup behind the join endpoint is
not part of src/ (only its client caller joinRoom is); section 4.2 of the
spec states joinByCode performs a case-insensitive code lookup and fails
with RoomNotFound on no match. Embedded as a case-insensitive search over
the known rooms, returning none for RoomNotFound. -/
def joinByCode (code : String) (rooms : List Room) : Option Room :=
  rooms.find? (fun r => jsToLowerCase r.room_code == jsToLowerCase code)

/-- The client-side routes of the app (App.js 712-730). -/
inductive Route where
  | loginPage
  | dashboard
  | room (roomId : String)
deriving DecidableEq

/-- App-level client state for the authentication-gating analysis: the
AuthProvider user, whether the SocketProvider socket state is non-null,
and the current route. -/
structure AppState where
  user : Option User
  socketSet : Bool
  route : Route
deriving DecidableEq

/-- Whether the StudyRoom component for room r is mounted: the route must
target it and, because PrivateRoute (App.js 701-704) renders its child
only when user is non-null, a user must be set. -/
def studyRoomMounted (st : AppState) (r : String) : Bool :=
  match st.route with
  | Route.room r2 => r2 == r && st.user.isSome
  | _ => false

/-- One step of the client app, labelled with the socket events it emits.
Each constructor embeds one code path of App.js that can change the
app-level state or emit on the socket:
login/register success (44-74), logout (76-81), the SocketProvider effect
(95-106, creates the socket only when user is non-null; the cleanup closes
the socket object but never resets the socket state field), navigation,
the StudyRoom join effect (455-461, guarded on socket, user and roomId),
and the StudyRoom callbacks handleNotesChange (514-522), sendMessage
(524-533) and draw (548-569), each of which can only run while the
StudyRoom is mounted and emits only if the socket is non-null. -/
inductive Step : AppState → List EmittedEvent → AppState → Prop where
  | loginOk (st : AppState) (u : User) :
      Step st [] { st with user := some u }
  | logout (st : AppState) :
      Step st [] { st with user := none }
  | socketEffect (st : AppState) (hu : st.user.isSome = true) :
      Step st [] { st with socketSet := true }
  | navigate (st : AppState) (r : Route) :
      Step st [] { st with route := r }
  | joinEffect (st : AppState) (r : String) (u : User)
      (hm : studyRoomMounted st r = true)
      (hu : st.user = some u) (hs : st.socketSet = true) :
      Step st [EmittedEvent.join_room r u] st
  | notesChange (st : AppState) (r : String) (content : String)
      (hm : studyRoomMounted st r = true) :
      Step st
        (if st.socketSet then [EmittedEvent.update_notes r content] else [])
        st
  | chatSubmit (st : AppState) (r : String) (msg : String)
      (hm : studyRoomMounted st r = true) :
      Step st
        (if jsTrim msg != "" && st.socketSet then
          [EmittedEvent.send_chat_message r (jsTrim msg)]
         else [])
        st
  | drawMove (st : AppState) (r : String) (d : DrawData)
      (hm : studyRoomMounted st r = true) :
      Step st
        (if st.socketSet then [EmittedEvent.drawing_data r d] else [])
        st

/-- The AuthProvider state: the stored token and the user (App.js 22-24). -/
structure AuthState where
  token : Option String
  user : Option User
deriving DecidableEq

/-- The payload a JWT decoder returns, as used by the effect: only the
exp field is read (App.js 30). -/
structure JwtPayload where
  exp : Nat
deriving DecidableEq

/-- The identifiers bound at module scope in App.js when the AuthProvider
effect runs: the imported bindings (lines 1-8, in particular jwtDecode on
line 7), the module constants (lines 10-19), and the module-level consts
defined with const below (initialized before any effect runs). -/
def appJsModuleScope : List String :=
  ["React", "useState", "useEffect", "createContext", "useContext",
   "BrowserRouter", "Routes", "Route", "Navigate", "Link", "useNavigate",
   "useParams", "io", "ReactQuill", "axios", "jwtDecode",
   "BACKEND_URL", "API", "AuthContext", "useAuth", "SocketContext",
   "useSocket", "AuthProvider", "SocketProvider", "Navbar", "Login",
   "Dashboard", "StudyRoom", "StudyRoomWrapper", "PrivateRoute", "App",
   "process", "localStorage", "Date", "JSON", "console", "document",
   "window"]

/-- The identifiers visible inside the AuthProvider token-restore effect
(App.js 26-42): the locals of AuthProvider and of the effect body, plus
everything at module scope. -/
def authEffectScope : List String :=
  ["children", "user", "setUser", "token", "setToken",
   "login", "register", "logout", "decoded", "userData", "error"]
  ++ appJsModuleScope

/-- Whether a bare identifier in the effect body resolves to a binding;
an unresolvable identifier throws a ReferenceError when evaluated. -/
def identifierInScope (name : String) : Bool :=
  authEffectScope.contains name

/-- The result of the logout function (App.js 76-81): both the stored
token and the user are cleared. -/
def logoutResult : AuthState :=
  { token := none, user := none }

/-- The AuthProvider token-restore effect (App.js 26-42), parameterized by
the decoder the jwtDecode import would supply, the stored user record in
localStorage, and the current time. The try block evaluates the bare
identifier written jwt_decode (line 29); if that name is not in scope the
call throws a ReferenceError, control reaches the catch branch (38-40),
and logout runs. Only if the name resolved would the decode result and
its exp field be consulted. -/
def tokenRestoreEffect (decode : String → Except String JwtPayload)
    (storedUser : Option User) (now : Nat) (st : AuthState) : AuthState :=
  match st.token with
  | none => st
  | some t =>
      if identifierInScope "jwt_decode" then
        match decode t with
        | Except.error _ => logoutResult
        | Except.ok decoded =>
            if decoded.exp * 1000 > now then { st with user := storedUser }
            else logoutResult
      else
        logoutResult

/-! ## Theorems -/

/-- C1: for every sequence of received chat_message events, the chat list
is extended by appending each received message at the end, leaving every
previously stored message and their relative order (and the other fields
of the component state) unchanged; the displayed order equals the order
of receipt. -/
theorem receivedChatAppended (st : RoomClientState) (ms : List ChatMessage) :
    (processChatEvents st ms).chatMessages = st.chatMessages ++ ms
  ∧ (processChatEvents st ms).notes = st.notes
  ∧ (processChatEvents st ms).connectedUsers = st.connectedUsers
  ∧ (processChatEvents st ms).newMessage = st.newMessage := by
  induction ms generalizing st with
  | nil => exact ⟨by simp [processChatEvents], rfl, rfl, rfl⟩
  | cons m t ih =>
      have e : processChatEvents st (m :: t)
          = processChatEvents (chatMessageHandler m st) t := rfl
      have h := ih (chatMessageHandler m st)
      rw [e]
      refine ⟨?_, ?_, ?_, ?_⟩
      · rw [h.1]; simp [chatMessageHandler]
      · rw [h.2.1]; rfl
      · rw [h.2.2.1]; rfl
      · rw [h.2.2.2]; rfl

/-- C2: sendMessage never inserts the submitted message into the local
chat list itself; the sender's displayed copy is exactly the
server-broadcast stored message appended by the chat_message handler. -/
theorem senderCopyIsServerCopy (st : RoomClientState) (m : ChatMessage) :
    (sendMessage st).fst.chatMessages = st.chatMessages
  ∧ (chatMessageHandler m (sendMessage st).fst).chatMessages
      = st.chatMessages ++ [m] := by
  unfold sendMessage chatMessageHandler
  split <;> simp

/-- C3 counterexample: the claim that sendMessage emits if and only if the
trimmed input is non-empty fails when the socket is null: with no socket
and input "hi" nothing is emitted although the trimmed input is
non-empty. -/
theorem sendMessageEmitIffNonEmpty_counterexample :
    ¬ (∀ st : RoomClientState,
        ((sendMessage st).snd ≠ [] ↔ jsTrim st.newMessage ≠ "")) := by
  intro h
  exact absurd
    (h (RoomClientState.mk "" [] "hi" [] false "r1"))
    (by decide)

/-- C3 amended: sendMessage emits a send_chat_message event if and only
if the socket is non-null and the trimmed input is non-empty; when it
emits, the payload is the trimmed input and the input field is cleared;
when the trimmed input is empty, no event is emitted and no client state
changes. -/
theorem sendMessageSpec (st : RoomClientState) :
    ((sendMessage st).snd ≠ [] ↔
      (st.socketPresent = true ∧ jsTrim st.newMessage ≠ ""))
  ∧ (st.socketPresent = true → jsTrim st.newMessage ≠ "" →
      (sendMessage st).snd
        = [EmittedEvent.send_chat_message st.roomId (jsTrim st.newMessage)]
      ∧ (sendMessage st).fst = { st with newMessage := "" })
  ∧ (jsTrim st.newMessage = "" → sendMessage st = (st, [])) := by
  cases hs : st.socketPresent <;>
    by_cases ht : jsTrim st.newMessage = "" <;>
      simp [sendMessage, hs, ht, bne_iff_ne]

/-- C3 witness: with the socket present and input " hi ", sendMessage
emits the trimmed payload and clears the field. -/
theorem sendMessageSpec_witness :
    (sendMessage (RoomClientState.mk "" [] " hi " [] true "r1")).snd
      = [EmittedEvent.send_chat_message "r1" (jsTrim " hi ")]
  ∧ (sendMessage (RoomClientState.mk "" [] " hi " [] true "r1")).fst
      = RoomClientState.mk "" [] "" [] true "r1" :=
  (sendMessageSpec (RoomClientState.mk "" [] " hi " [] true "r1")).2.1
    rfl (by decide)

/-- C4: after processing a non-empty sequence of received notes_updated
events, the notes state equals the content of the most recently received
update (last-write-wins). -/
theorem notesLastWriteWins (st : RoomClientState) (cs : List String)
    (h : cs ≠ []) :
    (processNotesEvents st cs).notes = cs.getLast h := by
  have hfold : ∀ (l : List String) (s : RoomClientState),
      (processNotesEvents s l).notes = l.getLastD s.notes := by
    intro l
    induction l with
    | nil => intro s; rfl
    | cons c t ih =>
        intro s
        have e : processNotesEvents s (c :: t)
            = processNotesEvents (notesUpdatedHandler c s) t := rfl
        rw [e, ih (notesUpdatedHandler c s)]
        exact (List.getLastD_cons s.notes c t).symm
  rw [hfold cs st]
  cases cs with
  | nil => exact absurd rfl h
  | cons a t =>
      simp [List.getLastD_eq_getLast?, List.getLast?_eq_getLast (a :: t) h]

/-- C4 witness: after receiving updates "a" then "b", the notes equal the
last received content. -/
theorem notesLastWriteWins_witness :
    (processNotesEvents (RoomClientState.mk "" [] "" [] true "r1")
      ["a", "b"]).notes = (["a", "b"]).getLast (by decide) :=
  notesLastWriteWins (RoomClientState.mk "" [] "" [] true "r1")
    ["a", "b"] (by decide)

/-- C5 counterexample: the claim fails in both halves at concrete inputs.
Notes half: with a null socket, a notes edit to "x" sets the local notes
but emits no update_notes event, so a notes edit does not always set and
then emit. Chat half: with the socket present and input " hello ",
sendMessage emits the event but the sender's local chat list stays empty,
so the message does not appear locally before the server broadcast. -/
theorem optimisticLocalState_counterexample :
    ((handleNotesChange "x"
        (RoomClientState.mk "" [] "" [] false "r1")).fst).notes = "x"
  ∧ (handleNotesChange "x"
        (RoomClientState.mk "" [] "" [] false "r1")).snd = []
  ∧ jsTrim " hello " ≠ ""
  ∧ (sendMessage (RoomClientState.mk "" [] " hello " [] true "r1")).snd ≠ []
  ∧ ((sendMessage
        (RoomClientState.mk "" [] " hello " [] true "r1")).fst).chatMessages
      = [] := by
  decide

/-- C5 amended: local edits are optimistic for notes but not for chat: a
notes edit sets the local notes state and, when the socket is non-null,
emits update_notes; a chat submission leaves the sender's local chat list
unchanged until the server broadcast arrives. -/
theorem optimisticLocalState (st : RoomClientState) (content : String) :
    (handleNotesChange content st).fst.notes = content
  ∧ (st.socketPresent = true →
      (handleNotesChange content st).snd
        = [EmittedEvent.update_notes st.roomId content])
  ∧ (sendMessage st).fst.chatMessages = st.chatMessages := by
  refine ⟨rfl, ?_, ?_⟩
  · intro hs; simp [handleNotesChange, hs]
  · unfold sendMessage; split <;> rfl

/-- C5 witness: with the socket present, a notes edit to "x" sets the
local notes and emits update_notes with the new content. -/
theorem optimisticLocalState_witness :
    ((handleNotesChange "x"
        (RoomClientState.mk "" [] "" [] true "r1")).fst).notes = "x"
  ∧ (handleNotesChange "x" (RoomClientState.mk "" [] "" [] true "r1")).snd
      = [EmittedEvent.update_notes "r1" "x"] :=
  ⟨(optimisticLocalState (RoomClientState.mk "" [] "" [] true "r1") "x").1,
   (optimisticLocalState (RoomClientState.mk "" [] "" [] true "r1") "x").2.1
     rfl⟩

/-- C6: room_state, user_joined and user_left all replace the entire
connected-users roster with the server-supplied users list, with no
merging; hence after a user_left whose list omits the departed connection,
no roster entry with that socket id remains. -/
theorem rosterReplacement (st : RoomClientState) (n : String)
    (cm : List ChatMessage) (users : List PresenceUser) (c : String)
    (hc : c ∉ users.map PresenceUser.socket_id) :
    (roomStateHandler n cm users st).connectedUsers = users
  ∧ (userJoinedHandler users st).connectedUsers = users
  ∧ (userLeftHandler users st).connectedUsers = users
  ∧ c ∉ (userLeftHandler users st).connectedUsers.map
      PresenceUser.socket_id :=
  ⟨rfl, rfl, rfl, hc⟩

/-- C6 witness: after a user_left carrying only the entry for socket s2,
the roster holds exactly that list and no entry for the departed
connection c1. -/
theorem rosterReplacement_witness :
    RoomClientState.connectedUsers (roomStateHandler "n" []
      [PresenceUser.mk "s2" "bob"]
      (RoomClientState.mk "" [] "" [PresenceUser.mk "c1" "al"] true "r1"))
      = [PresenceUser.mk "s2" "bob"]
  ∧ RoomClientState.connectedUsers
      (userJoinedHandler [PresenceUser.mk "s2" "bob"]
      (RoomClientState.mk "" [] "" [PresenceUser.mk "c1" "al"] true "r1"))
      = [PresenceUser.mk "s2" "bob"]
  ∧ RoomClientState.connectedUsers
      (userLeftHandler [PresenceUser.mk "s2" "bob"]
      (RoomClientState.mk "" [] "" [PresenceUser.mk "c1" "al"] true "r1"))
      = [PresenceUser.mk "s2" "bob"]
  ∧ "c1" ∉ List.map PresenceUser.socket_id
      (RoomClientState.connectedUsers
        (userLeftHandler [PresenceUser.mk "s2" "bob"]
        (RoomClientState.mk "" [] ""
          [PresenceUser.mk "c1" "al"] true "r1"))) :=
  rosterReplacement
    (RoomClientState.mk "" [] "" [PresenceUser.mk "c1" "al"] true "r1")
    "n" [] [PresenceUser.mk "s2" "bob"] "c1" (by decide)

/-- C7: the room code the Dashboard stores and submits to the join
endpoint is the uppercase form of the typed string, and against the
spec-modelled case-insensitive joinByCode lookup, submitting a lowercase
rendering of a valid join code succeeds. -/
theorem joinCodeUppercased (typed : String) (st : DashboardState)
    (rooms : List Room) (r : Room) (hm : r ∈ rooms)
    (hc : jsToUpperCase typed = r.room_code) :
    (roomCodeOnChange typed st).roomCode = jsToUpperCase typed
  ∧ (joinRoomRequest (roomCodeOnChange typed st)).room_code
      = jsToUpperCase typed
  ∧ (joinByCode
      (joinRoomRequest (roomCodeOnChange typed st)).room_code
      rooms).isSome = true := by
  refine ⟨rfl, rfl, ?_⟩
  have e : (joinRoomRequest (roomCodeOnChange typed st)).room_code
      = r.room_code := hc
  rw [joinByCode, e]
  exact List.find?_isSome.mpr ⟨r, hm, by simp⟩

/-- C7 witness: typing the lowercase rendering k3f9q2 of the issued code
K3F9Q2 stores and submits the uppercase code, and the spec-modelled
lookup finds the room. -/
theorem joinCodeUppercased_witness :
    (roomCodeOnChange "k3f9q2" (DashboardState.mk "")).roomCode
      = jsToUpperCase "k3f9q2"
  ∧ (joinRoomRequest
      (roomCodeOnChange "k3f9q2" (DashboardState.mk ""))).room_code
      = jsToUpperCase "k3f9q2"
  ∧ (joinByCode
      (joinRoomRequest
        (roomCodeOnChange "k3f9q2" (DashboardState.mk ""))).room_code
      [Room.mk "1" "Algebra" "K3F9Q2"]).isSome = true :=
  joinCodeUppercased "k3f9q2" (DashboardState.mk "")
    [Room.mk "1" "Algebra" "K3F9Q2"] (Room.mk "1" "Algebra" "K3F9Q2")
    (by decide) (by decide)

/-- In any state where the StudyRoom for room r is mounted, a user is
set: PrivateRoute renders the room child only with a non-null user. -/
theorem mountedUserIsSome (st : AppState) (r : String)
    (hm : studyRoomMounted st r = true) : st.user.isSome = true := by
  unfold studyRoomMounted at hm
  cases hroute : st.route with
  | loginPage => rw [hroute] at hm; cases hm
  | dashboard => rw [hroute] at hm; cases hm
  | room r2 =>
      rw [hroute] at hm
      exact (Bool.and_eq_true _ _ |>.mp hm).2

/-- C8: on any step of the client app, room-scoped events are emitted
only while an authenticated user is set and the socket is non-null; the
socket field becomes set only from a state with a non-null user; and any
emitted join_room event carries exactly the authenticated user. -/
theorem authenticatedEmission (st st2 : AppState)
    (evts : List EmittedEvent) (hstep : Step st evts st2) :
    (evts ≠ [] → st.user.isSome = true ∧ st.socketSet = true)
  ∧ (st.socketSet = false → st2.socketSet = true → st.user.isSome = true)
  ∧ (∀ r u, EmittedEvent.join_room r u ∈ evts → st.user = some u) := by
  cases hstep with
  | loginOk u =>
      refine ⟨fun h => absurd rfl h, fun h1 h2 => ?_, fun r u hmem => ?_⟩
      · rw [show ({ st with user := some u } : AppState).socketSet
            = st.socketSet from rfl, h1] at h2
        cases h2
      · cases hmem
  | logout =>
      refine ⟨fun h => absurd rfl h, fun h1 h2 => ?_, fun r u hmem => ?_⟩
      · rw [show ({ st with user := none } : AppState).socketSet
            = st.socketSet from rfl, h1] at h2
        cases h2
      · cases hmem
  | navigate r =>
      refine ⟨fun h => absurd rfl h, fun h1 h2 => ?_, fun r2 u2 hmem => ?_⟩
      · rw [show ({ st with route := r } : AppState).socketSet
            = st.socketSet from rfl, h1] at h2
        cases h2
      · cases hmem
  | socketEffect hu =>
      refine ⟨fun h => absurd rfl h, fun _ _ => hu, fun r u hmem => ?_⟩
      cases hmem
  | joinEffect r u hm hu hs =>
      refine ⟨fun _ => ⟨by rw [hu]; rfl, hs⟩, fun h1 _ => ?_,
        fun r2 u2 hmem => ?_⟩
      · rw [h1] at hs; cases hs
      · rw [List.mem_singleton] at hmem
        cases hmem
        exact hu
  | notesChange r content hm =>
      have hu := mountedUserIsSome st r hm
      refine ⟨?_, fun _ _ => hu, ?_⟩
      · intro hne
        cases hsock : st.socketSet with
        | false => simp [hsock] at hne
        | true => exact ⟨hu, rfl⟩
      · intro r2 u2 hmem
        split at hmem <;> simp at hmem
  | chatSubmit r msg hm =>
      have hu := mountedUserIsSome st r hm
      refine ⟨?_, fun _ _ => hu, ?_⟩
      · intro hne
        cases hcond : (jsTrim msg != "" && st.socketSet) with
        | false => simp [hcond] at hne
        | true => exact ⟨hu, ((Bool.and_eq_true _ _).mp hcond).2⟩
      · intro r2 u2 hmem
        split at hmem <;> simp at hmem
  | drawMove r d hm =>
      have hu := mountedUserIsSome st r hm
      refine ⟨?_, fun _ _ => hu, ?_⟩
      · intro hne
        cases hsock : st.socketSet with
        | false => simp [hsock] at hne
        | true => exact ⟨hu, rfl⟩
      · intro r2 u2 hmem
        split at hmem <;> simp at hmem

/-- C8 witness: a join effect in an authenticated, socket-connected state
emits a join_room event carrying that user, and a socket-creation step
from a socketless state starts from a state with a user set. -/
theorem authenticatedEmission_witness :
    (AppState.mk (some (User.mk "u1" "alice")) true
      (Route.room "r1")).user = some (User.mk "u1" "alice")
  ∧ (AppState.mk (some (User.mk "u1" "alice")) false
      Route.dashboard).user.isSome = true :=
  ⟨(authenticatedEmission
      (AppState.mk (some (User.mk "u1" "alice")) true (Route.room "r1"))
      (AppState.mk (some (User.mk "u1" "alice")) true (Route.room "r1"))
      [EmittedEvent.join_room "r1" (User.mk "u1" "alice")]
      (Step.joinEffect _ "r1" (User.mk "u1" "alice") (by decide) rfl
        rfl)).2.2 "r1" (User.mk "u1" "alice") (List.mem_singleton.mpr rfl),
   (authenticatedEmission
      (AppState.mk (some (User.mk "u1" "alice")) false Route.dashboard)
      (AppState.mk (some (User.mk "u1" "alice")) true Route.dashboard)
      []
      (Step.socketEffect _ rfl)).2.1 rfl rfl⟩

/-- C9: every drawing_data event the draw callback emits carries the
current room id and exactly the computed canvas-relative coordinates with
color "#000" and width 2, and the drawing_update handler renders exactly
the received color, width and coordinates with no modification. -/
theorem drawingRelayVerbatim (isDrawing : Bool) (rectLeft rectTop : Int)
    (e : MouseEvent) (st : RoomClientState) (ctx : CanvasCtx)
    (ev : EmittedEvent) (d : DrawData) (ctx2 : CanvasCtx)
    (hev : ev ∈ (draw isDrawing rectLeft rectTop e st ctx).snd) :
    ev = EmittedEvent.drawing_data st.roomId
      (DrawData.mk (e.clientX - rectLeft) (e.clientY - rectTop) "#000" 2)
  ∧ drawingUpdateHandler d (some ctx2)
      = some (CanvasCtx.mk d.color d.width (ctx2.path ++ [(d.x, d.y)])) := by
  refine ⟨?_, rfl⟩
  unfold draw at hev
  split at hev
  · split at hev
    · rw [List.mem_singleton] at hev
      exact hev
    · cases hev
  · cases hev

/-- C9 witness: a mouse move to client point (5, 7) over a canvas at
(2, 3) while drawing with the socket present emits the stroke (3, 4) in
color "#000" and width 2, and the handler renders that data verbatim. -/
theorem drawingRelayVerbatim_witness :
    EmittedEvent.drawing_data "r1" (DrawData.mk 3 4 "#000" 2)
      = EmittedEvent.drawing_data
          (RoomClientState.mk "" [] "" [] true "r1").roomId
          (DrawData.mk (5 - 2) (7 - 3) "#000" 2)
  ∧ drawingUpdateHandler (DrawData.mk 3 4 "#000" 2)
      (some (CanvasCtx.mk "" 0 []))
      = some (CanvasCtx.mk "#000" 2 ([] ++ [(3, 4)])) :=
  drawingRelayVerbatim true 2 3 (MouseEvent.mk 5 7)
    (RoomClientState.mk "" [] "" [] true "r1") (CanvasCtx.mk "" 0 [])
    (EmittedEvent.drawing_data "r1" (DrawData.mk 3 4 "#000" 2))
    (DrawData.mk 3 4 "#000" 2) (CanvasCtx.mk "" 0 []) (by decide)

/-- C10: for every persisted token, the AuthProvider token-restore effect
ends logged out with both token and user cleared, for every decoder the
jwtDecode import could supply, every stored user record, and every
current time, because the bare identifier jwt_decode it calls is not in
scope and its evaluation throws, reaching the catch branch that calls
logout; a persisted session is never restored. -/
theorem tokenRestoreAlwaysLogsOut
    (decode : String → Except String JwtPayload) (storedUser : Option User)
    (now : Nat) (st : AuthState) (t : String) (ht : st.token = some t) :
    tokenRestoreEffect decode storedUser now st = AuthState.mk none none := by
  unfold tokenRestoreEffect
  rw [ht]
  have hscope : identifierInScope "jwt_decode" = false := by decide
  rw [hscope]
  rfl

/-- C10 witness: even an unexpired decodable token persisted as "tok" is
not restored: the effect clears both token and user. -/
theorem tokenRestoreAlwaysLogsOut_witness :
    tokenRestoreEffect (fun _ => Except.ok (JwtPayload.mk 9999999999))
      (some (User.mk "u1" "alice")) 0 (AuthState.mk (some "tok") none)
      = AuthState.mk none none :=
  tokenRestoreAlwaysLogsOut (fun _ => Except.ok (JwtPayload.mk 9999999999))
    (some (User.mk "u1" "alice")) 0 (AuthState.mk (some "tok") none)
    "tok" rfl

end StudySphere
